import Mathlib

/-!
Shallow embedding of the session-orchestration core of `src/app/page.tsx`
(the `SQLPanel` React component).  Component state is modelled as a record;
each event handler becomes a pure function from the state (and, for
asynchronous handlers, the outcome of the awaited collaborator call) to the
next state.  Line numbers in doc comments refer to `src/app/page.tsx`.
-/

namespace SqlPanel

/-- JSON-like values, used for the untyped `data?: any[]` payloads that flow
through `QueryResult`. -/
inductive JsValue where
  | str : String → JsValue
  | num : Int → JsValue
  | bool : Bool → JsValue
  | null : JsValue
  | arr : List JsValue → JsValue
  | obj : List (String × JsValue) → JsValue

/-- Lines 12–17: `interface QueryResult`.  Absent optional fields are `none`. -/
structure QueryResult where
  success : Bool
  data : Option JsValue := none
  error : Option String := none
  message : Option String := none

/-- Lines 33–39: the `credentials` state object. -/
structure Credentials where
  host : String
  port : String
  user : String
  password : String
  database : String
deriving DecidableEq

/-- Lines 20–25: `AdminSettings.database` (defaults, no `database` field). -/
structure DbDefaults where
  host : String
  port : String
  user : String
  password : String
deriving DecidableEq

/-- Lines 26–29: `AdminSettings.executable`. -/
structure ExecDefaults where
  path : String
  defaultParams : String
deriving DecidableEq

/-- Lines 19–30: `interface AdminSettings`. -/
structure AdminSettings where
  database : DbDefaults
  executable : ExecDefaults
deriving DecidableEq

/-- Lines 33–53: the `useState` fields of `SQLPanel` that the orchestration
logic reads or writes.  The `AbortController` is modelled by its only
observable bit: `abortController = some b` means a controller is bound and
`b` is its aborted flag (`some false` = live token, `some true` = signalled). -/
structure State where
  credentials : Credentials
  query : String
  loading : Bool
  result : Option QueryResult
  databases : List String
  isConnected : Bool
  abortController : Option Bool
  csvFilename : String
  executablePath : String
  executableParams : String
  savedCsvPath : String
  adminSettings : AdminSettings

/-- Lines 33–39: the initial `useState` value of `credentials` (all fields
empty). -/
def initialCredentials : Credentials :=
  { host := "", port := "", user := "", password := "", database := "" }

/-- JavaScript `a || b` on strings: the empty string is falsy. -/
def jsOrStr (a b : String) : String :=
  if a = "" then b else a

/-- JavaScript `a || b` where `a` is a possibly-absent string (absent and
`""` are both falsy). -/
def jsOrOptStr (a : Option String) (b : String) : String :=
  match a with
  | some s => if s = "" then b else s
  | none => b

/-! ### String machinery for `split(' ')` and `replace('{csv}', path)` -/

/-- `strMatch pat s` holds when `pat` is an initial segment of `s`
(character-by-character). -/
def strMatch : List Char → List Char → Bool
  | [], _ => true
  | _ :: _, [] => false
  | p :: ps, c :: cs => p = c && strMatch ps cs

/-- Index of the first occurrence of `pat` inside `s` (leftmost match), as in
JavaScript `String.prototype.indexOf`; `none` when `pat` does not occur. -/
def findIdx (s pat : List Char) : Option Nat :=
  match s with
  | [] => if strMatch pat [] then some 0 else none
  | _ :: rest =>
    if strMatch pat s then some 0
    else (findIdx rest pat).map (· + 1)

/-- JavaScript `String.prototype.includes`. -/
def containsSub (s pat : String) : Bool :=
  (findIdx s.toList pat.toList).isSome

def dollarChar : Char := Char.ofNat 36

def ampChar : Char := Char.ofNat 38

def backquoteChar : Char := Char.ofNat 96

def squoteChar : Char := Char.ofNat 39

/-- ECMAScript `GetSubstitution` for a string (non-regexp) search value:
the replacement text is scanned left to right and the sequences
`$$` (a literal dollar), `$&` (the matched substring), a dollar followed by a
backquote (the portion of `str` preceding the match) and a dollar followed by
a single quote (the portion following the match) are substituted; every other
character, including any other `$`-sequence (there are no capture groups for
a string pattern), is copied literally.  In the literal-`$` branch the
following character is emitted together with the `$`: it is not `$`, so it
cannot begin a substitution sequence itself. -/
def getSubstitution (matched str : List Char) (position : Nat) : List Char → List Char
  | [] => []
  | c :: rest =>
    if c = dollarChar then
      match rest with
      | [] => [dollarChar]
      | d :: rest2 =>
        if d = dollarChar then dollarChar :: getSubstitution matched str position rest2
        else if d = ampChar then matched ++ getSubstitution matched str position rest2
        else if d = backquoteChar then str.take position ++ getSubstitution matched str position rest2
        else if d = squoteChar then
          str.drop (position + matched.length) ++ getSubstitution matched str position rest2
        else dollarChar :: d :: getSubstitution matched str position rest2
    else c :: getSubstitution matched str position rest

/-- JavaScript `s.replace(pat, rep)` with string `pat` and string `rep`:
only the first occurrence of `pat` is replaced, and the replacement text is
interpreted through `GetSubstitution` (`$`-sequences are special). -/
def replaceJS (s pat rep : List Char) : List Char :=
  match findIdx s pat with
  | none => s
  | some i => s.take i ++ getSubstitution pat s i rep ++ s.drop (i + pat.length)

/-- Literal first-occurrence replacement, as the specification words it:
the first occurrence of `pat` is replaced by `rep` itself, with no
interpretation of the replacement text.  This is the specification-side
definition used to compare against `replaceJS`. -/
def replaceFirstLit (s pat rep : List Char) : List Char :=
  match findIdx s pat with
  | none => s
  | some i => s.take i ++ rep ++ s.drop (i + pat.length)

/-- JavaScript `s.split(sep)` for a one-character separator: splits at every
occurrence, keeping empty segments (so `"".split(' ') = [""]` and
`"a  b".split(' ') = ["a", "", "b"]`). -/
def splitOnChar (sep : Char) : List Char → List (List Char)
  | [] => [[]]
  | c :: rest =>
    if c = sep then [] :: splitOnChar sep rest
    else
      match splitOnChar sep rest with
      | [] => [[c]]
      | t :: ts => (c :: t) :: ts

/-- The `"{csv}"` placeholder. -/
def csvTok : List Char := String.toList "{csv}"

/-- Lines 371–373: `executableParams.split(' ').map(param =>
param.replace('{csv}', savedCsvPath))`. -/
def substituteParams (template path : String) : List String :=
  (splitOnChar ' ' template.toList).map
    (fun tok => String.mk (replaceJS tok csvTok path.toList))

/-! ### Collaborator responses and outcomes of awaited calls -/

/-- Outcome of the awaited `/api/execute-sql` round trip (lines 119–139):
it resolves with a parsed body, rejects with an `AbortError` (the bound
controller was signalled before resolution), or rejects with any other
error. -/
inductive QueryOutcome where
  | resolved : QueryResult → QueryOutcome
  | aborted : QueryOutcome
  | failed : QueryOutcome

/-- Line 86 / §6: parsed body of `/api/list-databases`. -/
structure ListDbResponse where
  success : Bool
  databases : List String
  error : Option String

/-- Outcome of the awaited `/api/list-databases` round trip. -/
inductive DbOutcome where
  | resolved : ListDbResponse → DbOutcome
  | threw : DbOutcome

/-- Outcome of the awaited `/api/test-connection` round trip (lines 299–316);
the parsed body is displayed verbatim, so it is a `QueryResult` shape. -/
inductive ProbeOutcome where
  | resolved : QueryResult → ProbeOutcome
  | threw : ProbeOutcome

/-- Line 436 / §6: parsed body of `/api/save-csv`. -/
structure SaveCsvResponse where
  success : Bool
  filePath : String
  error : Option String

/-- Outcome of the awaited `/api/save-csv` round trip (lines 428–446):
resolution with a parsed body, or a thrown value — `threwError m` for an
`Error` instance with message `m`, `threwOther` for a non-`Error` value. -/
inductive CsvOutcome where
  | resolved : SaveCsvResponse → CsvOutcome
  | threwError : String → CsvOutcome
  | threwOther : CsvOutcome

/-- Lines 59–62 / §6: parsed body of `/api/admin-settings`. -/
structure SettingsResponse where
  success : Bool
  settings : AdminSettings

/-- Outcome of the awaited `/api/admin-settings` round trip. -/
inductive SettingsOutcome where
  | resolved : SettingsResponse → SettingsOutcome
  | threw : SettingsOutcome

/-! ### Event handlers -/

/-- Lines 269–289 and 110–117: an attempt to submit the query form.  While
`loading` is true the submit button is rendered `disabled` (line 272), so the
attempt is rejected and nothing is dispatched; otherwise `handleSubmit` runs
its synchronous prelude — `setLoading(true)`, `setResult(null)`, a fresh
`AbortController` is created and stored — and the `/api/execute-sql` request
is dispatched.  The returned `Bool` is `true` exactly when the request was
dispatched. -/
def submitQuery (s : State) : State × Bool :=
  if s.loading then (s, false)
  else ({ s with loading := true, result := none, abortController := some false }, true)

/-- Lines 118–143: settlement of the dispatched `/api/execute-sql` call,
including the `finally` block (`setLoading(false)`,
`setAbortController(null)`). -/
def resolveQuery (s : State) (o : QueryOutcome) : State :=
  let s1 :=
    match o with
    | QueryOutcome.resolved d => { s with result := some d }
    | QueryOutcome.aborted =>
      { s with result := some { success := false, error := some "Query cancelled by user." } }
    | QueryOutcome.failed =>
      { s with result := some { success := false, error := some "Failed to execute query. Please try again." } }
  { s1 with loading := false, abortController := none }

/-- Lines 146–150: `handleCancelQuery` — if a controller is bound, signal it
(`abortController.abort()`); otherwise do nothing.  Signalling only flips the
controller's aborted flag; no other state field is touched. -/
def handleCancelQuery (s : State) : State :=
  match s.abortController with
  | none => s
  | some _ => { s with abortController := some true }

/-- Line 95's fallback message. -/
def fetchDbFailMsg : String :=
  "Failed to fetch databases. Please check your connection and try again."

/-- Line 89: `result?.error?.includes('Failed to fetch databases')`, applied
to the `result` value captured by the render that created the handler. -/
def staleResultHasDbError (rr : Option QueryResult) : Bool :=
  match rr with
  | some r =>
    match r.error with
    | some e => containsSub e "Failed to fetch databases"
    | none => false
  | none => false

/-- Lines 78–108: settlement of `fetchDatabases` given the outcome of the
awaited `/api/list-databases` call.  `rr` is the `result` value captured by
the closure's render (used only by the line-89 check).  On a resolved body
with `success` the list is replaced; on a resolved body without `success` the
displayed result becomes a failure carrying `data.error || <fallback>` and
`isConnected` is forced false; on a thrown error the failure carries the
fallback message and `isConnected` is forced false.  The `finally` block
clears `loading`. -/
def fetchDatabasesResolve (rr : Option QueryResult) (s : State) (o : DbOutcome) : State :=
  let s1 :=
    match o with
    | DbOutcome.resolved d =>
      if d.success then
        let s2 := { s with databases := d.databases }
        if staleResultHasDbError rr then { s2 with result := none } else s2
      else
        { s with
            result := some { success := false, error := some (jsOrOptStr d.error fetchDbFailMsg) },
            isConnected := false }
    | DbOutcome.threw =>
      { s with
          result := some { success := false, error := some fetchDbFailMsg },
          isConnected := false }
  { s1 with loading := false }

/-- Lines 294–320: the Test Connection click after its synchronous prelude
(`setLoading(true)`, `setResult(null)`, `setIsConnected(false)`), given the
probe outcome and — when the probe body reports success, so that
`fetchDatabases()` is awaited as a continuation — the outcome of the
database-enumeration call.  `rr` is the render-captured `result` passed on to
`fetchDatabasesResolve`. -/
def testConnectionResolve (rr : Option QueryResult) (s : State)
    (o : ProbeOutcome) (dbo : DbOutcome) : State :=
  let s1 :=
    match o with
    | ProbeOutcome.resolved d =>
      let sR := { s with result := some d }
      if d.success then
        fetchDatabasesResolve rr { sR with isConnected := true, loading := true } dbo
      else
        { sR with isConnected := false }
    | ProbeOutcome.threw =>
      { s with result := some { success := false, error := some "Failed to test connection. Please try again." } }
  { s1 with loading := false }

/-- Lines 405–460: the Save CSV block is rendered only when
`result?.success && Array.isArray(result.data) && result.data.length > 0`. -/
def saveCsvVisible (s : State) : Bool :=
  match s.result with
  | some r =>
    r.success &&
      (match r.data with
       | some (JsValue.arr l) => decide (0 < l.length)
       | _ => false)
  | none => false

/-- Lines 427–452: body of the Save CSV click after the guards.  On a
resolved body with `success`, `savedCsvPath` is set to the supplied
`filePath` and the displayed result is rewritten to a success carrying the
unchanged `result.data` and the fixed message.  A resolved body without
`success` throws `new Error(data.error)` (whose message is `data.error`, or
`""` when absent), landing in the catch; the catch displays
`error instanceof Error ? error.message : 'Failed to save CSV'`. -/
def saveCsvResolve (s : State) (o : CsvOutcome) : State :=
  match o with
  | CsvOutcome.resolved d =>
    if d.success then
      { s with
          savedCsvPath := d.filePath,
          result := some
            { success := true,
              data := (match s.result with | some r => r.data | none => none),
              message := some "CSV file saved successfully" } }
    else
      { s with
          result := some { success := false, error := some (match d.error with | some e => e | none => "") } }
  | CsvOutcome.threwError m =>
    { s with result := some { success := false, error := some m } }
  | CsvOutcome.threwOther =>
    { s with result := some { success := false, error := some "Failed to save CSV" } }

/-- Lines 423–457: a Save CSV click.  The button exists only when the block
is rendered (`saveCsvVisible`), and line 426 returns early when
`csvFilename` is empty. -/
def saveCsvClick (s : State) (o : CsvOutcome) : State :=
  if saveCsvVisible s then
    if s.csvFilename = "" then s else saveCsvResolve s o
  else s

/-- Line 375–381: the request body posted to `/api/execute-file`. -/
structure ExecRequest where
  filePath : String
  parameters : List String
deriving DecidableEq

/-- Line 353: the Executable Path input displays
`executablePath || adminSettings.executable.path`. -/
def displayedExecutablePath (s : State) : String :=
  jsOrStr s.executablePath s.adminSettings.executable.path

/-- Line 362: the Parameters input displays
`executableParams || adminSettings.executable.defaultParams`. -/
def displayedExecutableParams (s : State) : String :=
  jsOrStr s.executableParams s.adminSettings.executable.defaultParams

/-- Line 396: the Execute button is rendered `disabled={!executablePath}` —
it tests the raw state field. -/
def executeFileDisabled (s : State) : Bool :=
  s.executablePath = ""

/-- Lines 368–382: the Execute click dispatches nothing when the raw
`executablePath` is empty (line 369); otherwise it posts the raw
`executablePath` and the parameters built from the raw `executableParams`
(line 371) with `{csv}` substituted by `savedCsvPath`. -/
def executeFileRequest (s : State) : Option ExecRequest :=
  if s.executablePath = "" then none
  else
    some
      { filePath := s.executablePath,
        parameters := substituteParams s.executableParams s.savedCsvPath }

/-- Lines 56–76: the `{...credentials, ...data.settings.database}` merge
guarded by the all-empty check, written over the `credentials` value the
closure captured (`captured`); when the check fails the current credentials
(`current`) are left as they are. -/
def hydrateCredentials (captured current : Credentials) (d : DbDefaults) : Credentials :=
  if captured.host = "" && captured.port = "" && captured.user = "" && captured.password = "" then
    { host := d.host, port := d.port, user := d.user, password := d.password,
      database := captured.database }
  else current

/-- Lines 56–76: settlement of the mount effect's `loadSavedSettings`.  The
effect has an empty dependency array, so its closure is created by the first
render and `credentials` inside it is the initial all-empty value
(`initialCredentials`) — regardless of what the operator has typed by the
time the response arrives.  On a resolved body with `success` the admin
settings are stored and the captured (initial) credentials are merged with
the loaded database defaults; failures are only logged. -/
def loadSavedSettingsResolve (s : State) (o : SettingsOutcome) : State :=
  match o with
  | SettingsOutcome.resolved d =>
    if d.success then
      { s with
          adminSettings := d.settings,
          credentials := hydrateCredentials initialCredentials s.credentials d.settings.database }
    else s
  | SettingsOutcome.threw => s

/-! ### Derived predicates over outcomes -/

/-- A `/api/list-databases` call failed: the collaborator reported failure or
the call threw. -/
def dbFailed : DbOutcome → Bool
  | DbOutcome.resolved d => !d.success
  | DbOutcome.threw => true

/-- The message the failure branches of `fetchDatabases` display (lines
93–97 and 99–104). -/
def dbFailMessage : DbOutcome → String
  | DbOutcome.resolved d => jsOrOptStr d.error fetchDbFailMsg
  | DbOutcome.threw => fetchDbFailMsg

/-- A `/api/save-csv` call failed: the collaborator reported failure or the
call threw. -/
def csvOutcomeFailed : CsvOutcome → Bool
  | CsvOutcome.resolved d => !d.success
  | CsvOutcome.threwError _ => true
  | CsvOutcome.threwOther => true

/-- The message the catch block of the Save CSV click displays (lines
447–452). -/
def csvFailureMsg : CsvOutcome → String
  | CsvOutcome.resolved d => (match d.error with | some e => e | none => "")
  | CsvOutcome.threwError m => m
  | CsvOutcome.threwOther => "Failed to save CSV"

/-! ### Concrete example values -/

/-- Admin settings with the defaults used by the examples. -/
def exAdmin : AdminSettings :=
  { database := { host := "y", port := "1", user := "", password := "" },
    executable := { path := "C:\\ameise.exe", defaultParams := "-x {csv}" } }

/-- An idle session right after mount (plus loaded admin settings and a typed
query). -/
def exState : State :=
  { credentials := initialCredentials, query := "SELECT 1", loading := false,
    result := none, databases := [], isConnected := false,
    abortController := none, csvFilename := "", executablePath := "",
    executableParams := "", savedCsvPath := "", adminSettings := exAdmin }

/-- A session with a query execution in flight. -/
def exBusy : State :=
  { exState with loading := true, abortController := some false }

/-- A one-row tabular payload, as in the end-to-end example of the spec. -/
def rowsEx : JsValue := JsValue.arr [JsValue.obj [("1", JsValue.num 1)]]

/-- A displayed tabular success. -/
def tabularResult : QueryResult := { success := true, data := some rowsEx }

/-- A connected session displaying a tabular success, with a CSV filename
typed. -/
def exportReadyState : State :=
  { exState with
      result := some tabularResult,
      csvFilename := "out.csv",
      isConnected := true,
      databases := ["db1", "db2"] }

/-- The session after a successful CSV export. -/
def afterExportState : State :=
  { exportReadyState with
      savedCsvPath := "/tmp/out.csv",
      result := some { success := true, data := some rowsEx, error := none,
                       message := some "CSV file saved successfully" } }

/-! ### Claim theorems -/

/-- Claim C1: a query submission is accepted only while the session is idle
(`loading = false`); an attempt while a query is executing is rejected with
the state unchanged and no execute-query request dispatched, so at most one
execution is in flight at a time. -/
theorem C1_submit_guard (s : State) :
    (s.loading = true → submitQuery s = (s, false)) ∧
    (s.loading = false → (submitQuery s).2 = true ∧ (submitQuery s).1.loading = true) := by
  constructor
  · intro h
    simp [submitQuery, h]
  · intro h
    simp [submitQuery, h]

/-- Witness for C1 at a concrete executing session. -/
theorem C1_witness : submitQuery exBusy = (exBusy, false) :=
  (C1_submit_guard exBusy).1 rfl

/-- Claim C9: Cancel is a no-op when no token is bound (any non-executing
state); it never changes any session field other than the bound token's
aborted flag; while a token is bound it signals that token; and a second
Cancel is an idempotent no-op. -/
theorem C9_cancel_guarded (s : State) :
    (s.abortController = none → handleCancelQuery s = s) ∧
    (handleCancelQuery s).loading = s.loading ∧
    (handleCancelQuery s).result = s.result ∧
    (handleCancelQuery s).databases = s.databases ∧
    (handleCancelQuery s).isConnected = s.isConnected ∧
    (handleCancelQuery s).savedCsvPath = s.savedCsvPath ∧
    (∀ b, s.abortController = some b → (handleCancelQuery s).abortController = some true) ∧
    handleCancelQuery (handleCancelQuery s) = handleCancelQuery s := by
  cases h : s.abortController with
  | none => simp [handleCancelQuery, h]
  | some b => simp [handleCancelQuery, h]

/-- Witness for C9: cancelling an idle session (no token) changes nothing;
cancelling an executing session signals its token. -/
theorem C9_witness :
    handleCancelQuery exState = exState ∧
    (handleCancelQuery exBusy).abortController = some true :=
  ⟨(C9_cancel_guarded exState).1 rfl,
   (C9_cancel_guarded exBusy).2.2.2.2.2.2.1 false rfl⟩

/-- Claim C10: submitting while idle clears the displayed result to empty in
the very state from which the execute-query request is dispatched, and leaves
the database list, connected flag, export record and credentials unchanged. -/
theorem C10_submit_frame (s : State) (h : s.loading = false) :
    (submitQuery s).1.result = none ∧
    (submitQuery s).2 = true ∧
    (submitQuery s).1.databases = s.databases ∧
    (submitQuery s).1.isConnected = s.isConnected ∧
    (submitQuery s).1.savedCsvPath = s.savedCsvPath ∧
    (submitQuery s).1.credentials = s.credentials := by
  simp [submitQuery, h]

/-- Witness for C10 at a session still displaying the export-success message:
submission clears it while the recorded CSV path survives. -/
theorem C10_witness :
    (submitQuery afterExportState).1.result = none ∧
    (submitQuery afterExportState).1.savedCsvPath = "/tmp/out.csv" :=
  ⟨(C10_submit_frame afterExportState rfl).1,
   (C10_submit_frame afterExportState rfl).2.2.2.2.1⟩

/-- A collaborator-resolved failure whose message happens to equal the
cancellation message. -/
def cancelSpoofResponse : QueryResult :=
  { success := false, error := some "Query cancelled by user." }

/-- Counterexample to C2 as stated: an execution that resolves (the token
never fired — the outcome is `resolved`, not `aborted`) with a
collaborator-reported failure is displayed verbatim (line 127), so when the
collaborator's message equals the cancellation message the displayed Result
carries the cancellation message although the failure had another reason. -/
theorem C2_counterexample :
    (resolveQuery exBusy (QueryOutcome.resolved cancelSpoofResponse)).result
      = some { success := false, data := none,
               error := some "Query cancelled by user.", message := none } ∧
    QueryOutcome.resolved cancelSpoofResponse ≠ QueryOutcome.aborted := by
  constructor
  · rfl
  · intro h
    exact QueryOutcome.noConfusion h

/-- Claim C2 (amended): a cancellation observed before resolution yields
exactly the Failure with message "Query cancelled by user."; a thrown
non-abort error yields exactly the generic Failure "Failed to execute query.
Please try again.", which differs from the cancellation message; but a
resolved collaborator response is displayed verbatim, so a resolved failure
may carry any message. -/
theorem C2_cancel_message (s : State) :
    (resolveQuery s QueryOutcome.aborted).result
      = some { success := false, data := none,
               error := some "Query cancelled by user.", message := none } ∧
    (resolveQuery s QueryOutcome.failed).result
      = some { success := false, data := none,
               error := some "Failed to execute query. Please try again.", message := none } ∧
    (some "Failed to execute query. Please try again." : Option String)
      ≠ some "Query cancelled by user." ∧
    (∀ d : QueryResult, (resolveQuery s (QueryOutcome.resolved d)).result = some d) := by
  refine ⟨rfl, rfl, by decide, fun d => rfl⟩

/-- Witness for C2 at a concrete executing session. -/
theorem C2_witness :
    (resolveQuery exBusy QueryOutcome.aborted).result
      = some { success := false, data := none,
               error := some "Query cancelled by user.", message := none } :=
  (C2_cancel_message exBusy).1

/-- Claim C6: a successful CSV export records the collaborator-supplied
`filePath` as the export record and rewrites the displayed result to a
success carrying the unchanged row data and the fixed message; nothing else
in the session changes. -/
theorem C6_export_success (s : State) (r : QueryResult) (d : SaveCsvResponse)
    (hr : s.result = some r) (hv : saveCsvVisible s = true)
    (hf : s.csvFilename ≠ "") (hd : d.success = true) :
    saveCsvClick s (CsvOutcome.resolved d)
      = { s with
            savedCsvPath := d.filePath,
            result := some { success := true, data := r.data, error := none,
                             message := some "CSV file saved successfully" } } := by
  simp [saveCsvClick, hv, hf, saveCsvResolve, hd, hr]

/-- Witness for C6: exporting the one-row example records `/tmp/out.csv` and
rewrites the display, with the rows untouched. -/
theorem C6_witness :
    saveCsvClick exportReadyState
        (CsvOutcome.resolved { success := true, filePath := "/tmp/out.csv", error := none })
      = { exportReadyState with
            savedCsvPath := "/tmp/out.csv",
            result := some { success := true, data := some rowsEx, error := none,
                             message := some "CSV file saved successfully" } } :=
  C6_export_success exportReadyState tabularResult
    { success := true, filePath := "/tmp/out.csv", error := none }
    rfl rfl (by decide) rfl

/-- Claim C7: a failed CSV export never writes the export record — the
previously recorded path survives unchanged — and (when the click passed its
guards) the displayed result becomes a Failure carrying the failure
message. -/
theorem C7_export_failure (s : State) (o : CsvOutcome) (h : csvOutcomeFailed o = true) :
    (saveCsvClick s o).savedCsvPath = s.savedCsvPath ∧
    (saveCsvVisible s = true → s.csvFilename ≠ "" →
      (saveCsvClick s o).result
        = some { success := false, data := none,
                 error := some (csvFailureMsg o), message := none }) := by
  have key : (saveCsvResolve s o).savedCsvPath = s.savedCsvPath ∧
      (saveCsvResolve s o).result
        = some { success := false, data := none,
                 error := some (csvFailureMsg o), message := none } := by
    cases o with
    | resolved d =>
      have hd : d.success = false := by simpa [csvOutcomeFailed] using h
      simp [saveCsvResolve, hd, csvFailureMsg]
    | threwError m => simp [saveCsvResolve, csvFailureMsg]
    | threwOther => simp [saveCsvResolve, csvFailureMsg]
  constructor
  · unfold saveCsvClick
    split
    · split
      · rfl
      · exact key.1
    · rfl
  · intro hv hf
    simp [saveCsvClick, hv, hf, key.2]

/-- A failing save response with a collaborator-supplied message. -/
def csvFailEx : CsvOutcome :=
  CsvOutcome.resolved { success := false, filePath := "", error := some "disk full" }

/-- Witness for C7: a failing export at the connected example session leaves
the export record alone and displays the collaborator's message. -/
theorem C7_witness :
    (saveCsvClick exportReadyState csvFailEx).savedCsvPath
      = exportReadyState.savedCsvPath ∧
    (saveCsvClick exportReadyState csvFailEx).result
      = some { success := false, data := none,
               error := some "disk full", message := none } :=
  ⟨(C7_export_failure exportReadyState csvFailEx rfl).1,
   (C7_export_failure exportReadyState csvFailEx rfl).2 rfl (by decide)⟩

/-- A failing enumeration response carrying a collaborator-supplied error. -/
def dbFailEx : DbOutcome :=
  DbOutcome.resolved { success := false, databases := [], error := some "Access denied" }

/-- Counterexample to C5 as stated: when the collaborator reports failure
with a non-empty `error`, line 95 displays `data.error`, not the fixed
"Failed to fetch databases. Please check your connection and try again."
message. -/
theorem C5_counterexample :
    (fetchDatabasesResolve none exState dbFailEx).result
      = some { success := false, data := none,
               error := some "Access denied", message := none } ∧
    ("Access denied" : String) ≠ fetchDbFailMsg := by
  constructor
  · rfl
  · decide

/-- Claim C5 (amended): a failed database enumeration forces the connected
flag to false — even when it runs as the continuation of a probe that
reported success — leaves the database list unreplaced, and displays a
Failure whose message is the collaborator-supplied error when present and
non-empty, and the fixed fallback message otherwise. -/
theorem C5_enumeration_failure (rr : Option QueryResult) (s : State) (o : DbOutcome)
    (h : dbFailed o = true) :
    (fetchDatabasesResolve rr s o).isConnected = false ∧
    (fetchDatabasesResolve rr s o).databases = s.databases ∧
    (fetchDatabasesResolve rr s o).result
      = some { success := false, data := none,
               error := some (dbFailMessage o), message := none } ∧
    (∀ pd : QueryResult, pd.success = true →
      (testConnectionResolve rr s (ProbeOutcome.resolved pd) o).isConnected = false) := by
  have key : ∀ t : State, (fetchDatabasesResolve rr t o).isConnected = false ∧
      (fetchDatabasesResolve rr t o).databases = t.databases ∧
      (fetchDatabasesResolve rr t o).result
        = some { success := false, data := none,
                 error := some (dbFailMessage o), message := none } := by
    intro t
    cases o with
    | resolved d =>
      have hd : d.success = false := by simpa [dbFailed] using h
      simp [fetchDatabasesResolve, hd, dbFailMessage]
    | threw => simp [fetchDatabasesResolve, dbFailMessage]
  refine ⟨(key s).1, (key s).2.1, (key s).2.2, ?_⟩
  intro pd hpd
  simp only [testConnectionResolve, hpd, if_true]
  exact (key _).1

/-- Witness for C5: with "Access denied" reported by the enumeration, the
session ends disconnected, also when the probe just succeeded. -/
theorem C5_witness :
    (fetchDatabasesResolve none exState dbFailEx).isConnected = false ∧
    (testConnectionResolve none exState
        (ProbeOutcome.resolved { success := true }) dbFailEx).isConnected = false :=
  ⟨(C5_enumeration_failure none exState dbFailEx rfl).1,
   (C5_enumeration_failure none exState dbFailEx rfl).2.2.2 { success := true } rfl⟩

/-- A session with a recorded export but with both operator fields of the
Execute File card still empty, while admin defaults exist. -/
def c4State : State := { exState with savedCsvPath := "/tmp/out.csv" }

/-- Claim C4 names the intended behavior; the code diverges (bug): the
Executable Path and Parameters inputs *display* the admin-settings fallback
(lines 353 and 362), but the Execute button's guard and dispatch use the raw
state fields (lines 369, 371, 379, 396).  With both operator fields empty
and a non-empty admin default path, the button is disabled and nothing is
dispatched although the displayed (post-fallback) path is non-empty; and
with a path typed but the parameter field empty, the dispatched parameter
list is `[""]` — the split of the raw empty string — not the substituted
admin default parameters. -/
theorem C4_code_bug :
    executeFileDisabled c4State = true ∧
    displayedExecutablePath c4State = "C:\\ameise.exe" ∧
    executeFileRequest c4State = none ∧
    executeFileRequest { c4State with executablePath := "C:\\other.exe" }
      = some { filePath := "C:\\other.exe", parameters := [""] } ∧
    displayedExecutableParams c4State = "-x {csv}" ∧
    substituteParams (displayedExecutableParams c4State) c4State.savedCsvPath
      = ["-x", "/tmp/out.csv"] := by
  refine ⟨rfl, rfl, rfl, rfl, rfl, by decide⟩

/-- The admin settings arriving for the C8 scenario. -/
def loadedSettingsEx : AdminSettings :=
  { database := { host := "y", port := "1", user := "", password := "" },
    executable := { path := "", defaultParams := "" } }

/-- The session after the operator typed host "x" but before the settings
response arrived. -/
def typedState : State :=
  { exState with credentials := { initialCredentials with host := "x" } }

/-- Claim C8 names the intended behavior — the code's own comment (line 63)
says "Pre-fill credentials if not already set" — but the code diverges
(bug): the mount effect's async closure captured the first render's
credentials, which are the initial all-empty value, so the not-already-set
check always passes and the merge is built from those stale empty
credentials.  With host already "x" when settings `{host:"y", port:"1"}`
load, the final host is "y", not the "x" the claim requires. -/
theorem C8_code_bug :
    ((loadSavedSettingsResolve typedState
        (SettingsOutcome.resolved { success := true, settings := loadedSettingsEx })).credentials).host
      = "y" ∧
    ((loadSavedSettingsResolve typedState
        (SettingsOutcome.resolved { success := true, settings := loadedSettingsEx })).credentials).host
      ≠ "x" := by
  constructor
  · rfl
  · decide

/-! ### Replacement semantics: `replaceJS` versus literal substitution -/

/-- When the replacement text contains no dollar character,
`GetSubstitution` copies it verbatim. -/
theorem getSubstitution_no_dollar (matched str : List Char) (position : Nat)
    (rep : List Char) (h : ∀ c ∈ rep, c ≠ dollarChar) :
    getSubstitution matched str position rep = rep := by
  induction rep with
  | nil => rfl
  | cons c rest ih =>
    have hc : c ≠ dollarChar := h c (List.mem_cons_self c rest)
    have hrest : ∀ x ∈ rest, x ≠ dollarChar := fun x hx => h x (List.mem_cons_of_mem c hx)
    rw [getSubstitution.eq_def]
    simp only [hc, if_false]
    rw [ih hrest]

/-- When the replacement text contains no dollar character, JavaScript
`replace` agrees with literal first-occurrence substitution. -/
theorem replaceJS_no_dollar (s pat rep : List Char) (h : ∀ c ∈ rep, c ≠ dollarChar) :
    replaceJS s pat rep = replaceFirstLit s pat rep := by
  cases hfi : findIdx s pat with
  | none => simp [replaceJS, replaceFirstLit, hfi]
  | some i => simp [replaceJS, replaceFirstLit, hfi, getSubstitution_no_dollar pat s i rep h]

/-- Counterexample to C3 as stated: the code substitutes via JavaScript
`String.prototype.replace`, whose replacement string interprets
`$`-sequences, so for the path `"$$"` the token `"{csv}"` becomes `"$"`, not
the path itself. -/
theorem C3_counterexample :
    substituteParams "{csv}" "$$" = ["$"] ∧
    substituteParams "{csv}" "$$" ≠ ["$$"] := by
  constructor
  · rfl
  · decide

/-- Claim C3 (amended): for every parameter template and every absolute path
containing no dollar character, the template is split on single spaces and
in each token only the first literal occurrence of "{csv}" is replaced by the
path, tokens without the placeholder passing through unchanged (the
`replaceFirstLit` form of the specification); paths containing `$` are
instead subject to JavaScript replacement-pattern interpretation. -/
theorem C3_substitution (template path : String)
    (h : ∀ c ∈ path.toList, c ≠ dollarChar) :
    substituteParams template path
      = (splitOnChar ' ' template.toList).map
          (fun tok => String.mk (replaceFirstLit tok csvTok path.toList)) := by
  have hfun : (fun tok => String.mk (replaceJS tok csvTok path.toList))
      = (fun tok => String.mk (replaceFirstLit tok csvTok path.toList)) := by
    funext tok
    rw [replaceJS_no_dollar tok csvTok path.toList h]
  unfold substituteParams
  rw [hfun]

/-- Witness for C3 on the spec's own vectors: a dollar-free path. -/
theorem C3_witness :
    (∀ c ∈ ("/tmp/out.csv").toList, c ≠ dollarChar) ∧
    substituteParams "--file={csv} plain {csv} {csv}" "/tmp/out.csv"
      = (splitOnChar ' ' ("--file={csv} plain {csv} {csv}").toList).map
          (fun tok => String.mk (replaceFirstLit tok csvTok ("/tmp/out.csv").toList)) :=
  ⟨by decide, C3_substitution "--file={csv} plain {csv} {csv}" "/tmp/out.csv" (by decide)⟩

/-- The concrete substitution vectors named by the specification, evaluated
on the embedded code. -/
theorem substituteParams_vectors :
    substituteParams "{csv}" "/p" = ["/p"] ∧
    substituteParams "--file={csv}" "/p" = ["--file=/p"] ∧
    substituteParams "plain" "/p" = ["plain"] ∧
    substituteParams "{csv} {csv}" "/p" = ["/p", "/p"] ∧
    substituteParams "--in {csv}" "/tmp/out.csv" = ["--in", "/tmp/out.csv"] := by
  refine ⟨by decide, by decide, by decide, by decide, by decide⟩

end SqlPanel
